import Mathlib

/-!
Verification of `src/google_oauth_api.py` (OAuth2 credential lifecycle).

Shallow embedding conventions:
* Python dict values that the module actually stores or inspects are
  modelled by `PyVal` (strings, integers, `None`); Python truthiness is
  `PyVal.truthy`.
* `datetime` values appearing in serialization (`from_dict` / `to_dict`)
  are modelled by the civil tuple `DT` (year..second plus an optional
  UTC-offset in minutes); `datetime` values appearing only as instants in
  the expiry / refresh dynamics are modelled as `Int` epoch seconds.
  Sub-second precision is not modelled (the code only compares with a
  3-minute buffer and the round-trip tolerance in the spec is 1 s).
* The external transport and configuration provider are abstracted as a
  per-attempt outcome: either a transport-level failure carrying the
  exception message (covers URL resolution, POST/GET and
  `raise_for_status`), or a parsed JSON body (a `PyVal` dict).
* Exceptions are `Except String`, the payload being `str(e)` as the code
  uses it for classification and for building `TokenError` messages.
-/

deriving instance DecidableEq for Except

namespace GOA

/-- Model of the Python values stored in the credential dicts. -/
inductive PyVal where
  | vnone : PyVal
  | vstr (s : String) : PyVal
  | vint (n : Int) : PyVal
deriving DecidableEq, Repr

/-- Python truthiness for the modelled values. -/
def PyVal.truthy : PyVal → Bool
  | .vnone => false
  | .vstr s => !(s.data.isEmpty)
  | .vint n => n != 0

/-- A Python dict (string keys) as an association list; first binding wins,
as in a dict where each key occurs once. -/
abbrev Dict := List (String × PyVal)

/-- `data.get(k)` with default `None`. -/
def dget (d : Dict) (k : String) : PyVal :=
  match List.lookup k d with
  | some v => v
  | none => .vnone

/-- `data.get(k, dflt)`. -/
def dgetD (d : Dict) (k : String) (dflt : PyVal) : PyVal :=
  match List.lookup k d with
  | some v => v
  | none => dflt

/-- `k in data`. -/
def dmem (d : Dict) (k : String) : Bool :=
  (List.lookup k d).isSome

/-- Python `a or b`. -/
def pyOr (a b : PyVal) : PyVal :=
  if a.truthy then a else b

/-- `needle in hay` for Python strings: substring occurrence test. -/
def listSubseg (nd : List Char) (hy : List Char) : Bool :=
  match hy with
  | [] => nd.isEmpty
  | c :: t => List.isPrefixOf nd (c :: t) || listSubseg nd t

/-- `needle in hay` on `String`s. -/
def strIn (nd hy : String) : Bool :=
  listSubseg nd.data hy.data

/-- `str.lower()` (ASCII, as the markers below are ASCII). -/
def strLower (s : String) : String :=
  String.mk (s.data.map Char.toLower)

/-- The fixed list of non-retryable markers
(`Credentials._is_non_retryable_error`, lines 121-129). -/
def nonRetryablePatterns : List String :=
  ["400 Bad Request", "invalid_grant", "refresh_token_expired",
   "invalid_refresh_token", "unauthorized_client", "access_denied",
   "401 Unauthorized"]

/-- `Credentials._is_non_retryable_error`: case-insensitive substring match
of the error message against the fixed marker list (lines 119-136). -/
def is_non_retryable_error (error_msg : String) : Bool :=
  nonRetryablePatterns.any (fun p => strIn (strLower p) (strLower error_msg))


/-! ## Civil datetimes for the serialization layer

`DT` models a `datetime` at second precision; `tz` is the UTC offset in
minutes (`none` for a naive datetime, `some 0` for `timezone.utc`). -/

structure DT where
  year : Nat
  month : Nat
  day : Nat
  hour : Nat
  minute : Nat
  second : Nat
  tz : Option Int
deriving DecidableEq, Repr

/-- Field ranges accepted by `datetime` plus `isoformat`-printable offsets
(the `day ≤ 31` bound is coarser than the per-month rule, which no claim
exercises). -/
def DT.validb (dt : DT) : Bool :=
  decide (dt.year < 10000) && decide (1 ≤ dt.month) && decide (dt.month ≤ 12) &&
  decide (1 ≤ dt.day) && decide (dt.day ≤ 31) && decide (dt.hour ≤ 23) &&
  decide (dt.minute ≤ 59) && decide (dt.second ≤ 59) &&
  (match dt.tz with
   | none => true
   | some o => decide (o.natAbs < 1440))

/-- Days since 1970-01-01 of a civil date (standard `days_from_civil`
algorithm, matching `datetime.timestamp` arithmetic). -/
def daysFromCivil (y m d : Int) : Int :=
  let y1 : Int := if m ≤ 2 then y - 1 else y
  let era : Int := (if 0 ≤ y1 then y1 else y1 - 399) / 400
  let yoe : Int := y1 - era * 400
  let mp : Int := (m + 9) % 12
  let doy : Int := (153 * mp + 2) / 5 + d - 1
  let doe : Int := yoe * 365 + yoe / 4 - yoe / 100 + doy
  era * 146097 + doe - 719468

/-- Epoch seconds of the wall-clock fields, ignoring the offset. -/
def DT.wallEpoch (dt : DT) : Int :=
  86400 * daysFromCivil dt.year dt.month dt.day +
    3600 * (dt.hour : Int) + 60 * (dt.minute : Int) + dt.second

/-- The absolute UTC instant an (aware) datetime denotes: wall clock minus
its UTC offset.  For a naive datetime this treats the wall clock as UTC. -/
def DT.instant (dt : DT) : Int :=
  dt.wallEpoch - 60 * (dt.tz.getD 0)

/-- Digit character for `n < 10`. -/
def dg (n : Nat) : Char := Char.ofNat (48 + n)

/-- `%02d`. -/
def two (n : Nat) : List Char := [dg (n / 10 % 10), dg (n % 10)]

/-- The 19 characters `YYYY-MM-DDTHH:MM:SS` of `datetime.isoformat`
(microseconds zero). -/
def fmtWall (dt : DT) : List Char :=
  [dg (dt.year / 1000 % 10), dg (dt.year / 100 % 10), dg (dt.year / 10 % 10),
   dg (dt.year % 10), '-', dg (dt.month / 10 % 10), dg (dt.month % 10), '-',
   dg (dt.day / 10 % 10), dg (dt.day % 10), 'T', dg (dt.hour / 10 % 10),
   dg (dt.hour % 10), ':', dg (dt.minute / 10 % 10), dg (dt.minute % 10), ':',
   dg (dt.second / 10 % 10), dg (dt.second % 10)]

/-- The `±HH:MM` suffix `isoformat` appends for an aware datetime
(empty for naive). -/
def tzChars : Option Int → List Char
  | none => []
  | some o =>
    let a := o.natAbs
    (if 0 ≤ o then '+' else '-') :: (two (a / 60) ++ ':' :: two (a % 60))

/-- `datetime.isoformat()` at second precision. -/
def DT.isoformat (dt : DT) : String :=
  String.mk (fmtWall dt ++ tzChars dt.tz)

/-- Numeric value of a digit character. -/
def cval (c : Char) : Nat := c.toNat - 48

/-- The 19-character core `YYYY-MM-DDTHH:MM:SS` of `fromisoformat`,
validating separators, digits and field ranges. -/
def parseCore (y1 y2 y3 y4 s1 m1 m2 s2 d1 d2 s3 h1 h2 s4 n1 n2 s5 e1 e2 : Char)
    (tz : Option Int) : Option DT :=
  if s1 = '-' && s2 = '-' && s3 = 'T' && s4 = ':' && s5 = ':' &&
     y1.isDigit && y2.isDigit && y3.isDigit && y4.isDigit &&
     m1.isDigit && m2.isDigit && d1.isDigit && d2.isDigit &&
     h1.isDigit && h2.isDigit && n1.isDigit && n2.isDigit &&
     e1.isDigit && e2.isDigit then
    let y := 1000 * cval y1 + 100 * cval y2 + 10 * cval y3 + cval y4
    let mo := 10 * cval m1 + cval m2
    let d := 10 * cval d1 + cval d2
    let h := 10 * cval h1 + cval h2
    let mi := 10 * cval n1 + cval n2
    let s := 10 * cval e1 + cval e2
    if 1 ≤ mo && mo ≤ 12 && 1 ≤ d && d ≤ 31 && h ≤ 23 && mi ≤ 59 && s ≤ 59 then
      some ⟨y, mo, d, h, mi, s, tz⟩
    else none
  else none

/-- The `±HH:MM` offset accepted by `fromisoformat`. -/
def parseOffset (sg o1 o2 c1 o3 o4 : Char) : Option Int :=
  if (sg = '+' || sg = '-') && c1 = ':' &&
     o1.isDigit && o2.isDigit && o3.isDigit && o4.isDigit then
    let hh := 10 * cval o1 + cval o2
    let mm := 10 * cval o3 + cval o4
    if hh ≤ 23 && mm ≤ 59 then
      let a : Int := (hh * 60 + mm : Nat)
      some (if sg = '+' then a else -a)
    else none
  else none

/-- `datetime.fromisoformat` restricted to the shapes `isoformat`
produces at second precision: `YYYY-MM-DDTHH:MM:SS` optionally followed
by `±HH:MM`.  Returns `none` where Python raises `ValueError`. -/
def fromisoformat (cs : List Char) : Option DT :=
  match cs with
  | [y1, y2, y3, y4, s1, m1, m2, s2, d1, d2, s3, h1, h2, s4, n1, n2, s5, e1, e2] =>
    parseCore y1 y2 y3 y4 s1 m1 m2 s2 d1 d2 s3 h1 h2 s4 n1 n2 s5 e1 e2 none
  | [y1, y2, y3, y4, s1, m1, m2, s2, d1, d2, s3, h1, h2, s4, n1, n2, s5, e1, e2,
     sg, o1, o2, c1, o3, o4] =>
    match parseOffset sg o1 o2 c1 o3 o4 with
    | some off =>
      parseCore y1 y2 y3 y4 s1 m1 m2 s2 d1 d2 s3 h1 h2 s4 n1 n2 s5 e1 e2 (some off)
    | none => none
  | _ => none

/-- `expiry_str.replace('Z', '+00:00')` on the character list. -/
def replaceZ : List Char → List Char
  | [] => []
  | c :: t => if c = 'Z' then '+' :: '0' :: '0' :: ':' :: '0' :: '0' :: replaceZ t
              else c :: replaceZ t

/-- Character occurrence in a character list. -/
def hasChar (c : Char) : List Char → Bool
  | [] => false
  | a :: t => if a = c then true else hasChar c t

/-- Whether the last character of a list is `'Z'`. -/
def lastIsZ : List Char → Bool
  | [] => false
  | [c] => c = 'Z'
  | _ :: b :: t => lastIsZ (b :: t)

/-- `expiry_str.endswith('Z')`. -/
def endsWithZ (s : String) : Bool :=
  lastIsZ s.data

/-- `'+' in expiry_str`. -/
def containsPlus (s : String) : Bool :=
  hasChar '+' s.data

/-- `dt.replace(tzinfo=timezone.utc)`: keep the wall clock, force UTC. -/
def dtReplaceTzUtc (dt : DT) : DT :=
  { dt with tz := some 0 }

/-- The expiry-string branch of `Credentials.from_dict` (lines 146-152):
`Z`-suffix replaced by `+00:00` then parsed; strings containing `+`
parsed directly; anything else parsed then re-tagged as UTC keeping the
wall clock.  `none` where Python raises `ValueError`. -/
def parseExpiryStr (s : String) : Option DT :=
  if endsWithZ s then fromisoformat (replaceZ s.data)
  else if containsPlus s then fromisoformat s.data
  else
    match fromisoformat s.data with
    | some dt => some (dtReplaceTzUtc dt)
    | none => none


/-! ## `Credentials` as a record (serialization view)

The fields are `PyVal` because `from_dict` stores whatever the dict held
(lines 156-163); `expires_at` is the parsed datetime. -/

structure Credentials where
  access_token : PyVal
  refresh_token : PyVal
  client_id : PyVal
  client_secret : PyVal
  expires_at : Option DT
  project_id : PyVal
deriving DecidableEq, Repr

/-- `Credentials.from_dict` (lines 138-163).  The second component records
whether the `ValueError` branch logged a parse warning. -/
def Credentials.from_dict (data : Dict) : Credentials × Bool :=
  let ew : Option DT × Bool :=
    if dmem data "expiry" && (dget data "expiry").truthy then
      match dget data "expiry" with
      | .vstr s =>
        match parseExpiryStr s with
        | some dt => (some dt, false)
        | none => (none, true)
      | _ => (none, false)
    else (none, false)
  ({ access_token := pyOr (dget data "token") (dgetD data "access_token" (.vstr "")),
     refresh_token := dget data "refresh_token",
     client_id := dget data "client_id",
     client_secret := dget data "client_secret",
     expires_at := ew.1,
     project_id := dget data "project_id" }, ew.2)

/-- `Credentials.to_dict` (lines 165-178). -/
def Credentials.to_dict (c : Credentials) : Dict :=
  [("access_token", c.access_token), ("refresh_token", c.refresh_token),
   ("client_id", c.client_id), ("client_secret", c.client_secret),
   ("project_id", c.project_id)] ++
  (match c.expires_at with
   | some dt => [("expiry", .vstr dt.isoformat)]
   | none => [])

/-! ## Expiry dynamics (instant view)

Here `expires_at` and `now` are UTC instants in epoch seconds; a
`datetime` is always truthy in Python, so absence is exactly `none`. -/

/-- The shared body of `Credentials.is_expired` (lines 37-44) and
`ServiceAccount.is_expired` (lines 278-284): absent means expired, and a
3-minute (180 s) buffer is subtracted from the expiry before comparing
with the current UTC time. -/
def is_expired (expires_at : Option Int) (now : Int) : Bool :=
  match expires_at with
  | none => true
  | some t => decide (t - 180 ≤ now)

/-- Mutable credential state touched by `Credentials.refresh`. -/
structure CredState where
  access_token : PyVal
  refresh_token : PyVal
  expires_at : Option Int
deriving DecidableEq, Repr

/-- `Credentials.is_expired` on the instant view. -/
def CredState.is_expired (c : CredState) (now : Int) : Bool :=
  GOA.is_expired c.expires_at now

/-- One attempt's interaction with the endpoint: either some step before
body processing raised (URL lookup, POST, `raise_for_status`, `json()`),
carrying `str(e)`, or a parsed JSON body. -/
inductive AttemptOutcome where
  | transportError (msg : String) : AttemptOutcome
  | response (body : Dict) : AttemptOutcome

/-- Accumulating digit-run parser for `int()`. -/
def digitsAcc : List Char → Nat → Option Nat
  | [], acc => some acc
  | c :: t, acc => if c.isDigit then digitsAcc t (10 * acc + cval c) else none

/-- Decimal digit run, as `int()` accepts (sign handled by the caller). -/
def digitsToNat : List Char → Option Nat
  | [] => none
  | cs => digitsAcc cs 0

/-- `int(s)` for a string (optional leading sign, decimal digits;
whitespace/underscore tolerance of CPython is not exercised here). -/
def strToInt (s : String) : Option Int :=
  match s.data with
  | '-' :: rest => (digitsToNat rest).map (fun n => -(n : Int))
  | '+' :: rest => (digitsToNat rest).map (fun n => (n : Int))
  | l => (digitsToNat l).map (fun n => (n : Int))

/-- Python `int(v)` on the modelled values: `str(e)` on failure. -/
def pyInt : PyVal → Except String Int
  | .vint n => .ok n
  | .vstr s =>
    match strToInt s with
    | some n => .ok n
    | none => .error ("invalid literal for int() with base 10: '" ++ s ++ "'")
  | .vnone => .error "int() argument must be a string, a bytes-like object or a real number, not 'NoneType'"

/-- The body-processing block of `Credentials.refresh` (lines 81-89), run
inside the `try`: assigns `access_token`, then converts `expires_in` and
assigns `expires_at`, then assigns a rotated `refresh_token`.  Mutations
made before a failing step survive, as in the source. -/
def applyTokenData (now : Int) (st : CredState) (body : Dict) :
    CredState × Except String Unit :=
  match List.lookup "access_token" body with
  | none => (st, .error "'access_token'")
  | some v =>
    let st1 := { st with access_token := v }
    let step : CredState × Except String Unit :=
      match List.lookup "expires_in" body with
      | none => (st1, .ok ())
      | some w =>
        match pyInt w with
        | .error e => (st1, .error e)
        | .ok n => ({ st1 with expires_at := some (now + n) }, .ok ())
    match step with
    | (st2, .ok ()) =>
      match List.lookup "refresh_token" body with
      | none => (st2, .ok ())
      | some r => ({ st2 with refresh_token := r }, .ok ())
    | err => err

/-- The `TokenError` message raised after the loop (line 115). -/
def refreshFailMsg (max_retries : Nat) (lastErr : String) : String :=
  "Token刷新失败（已重试" ++ toString max_retries ++ "次）: " ++ lastErr

/-- Trace of one `refresh` call: final state, number of attempts actually
made, the sleeps performed (seconds, in order), and the result. -/
structure RefreshTrace where
  state : CredState
  attempts : Nat
  sleeps : List ℚ
  result : Except String Unit
deriving DecidableEq, Repr

/-- The body of one iteration of the `refresh` retry loop (the `try`
block, lines 71-95): either a raise before body processing, or the
processing of a parsed body. -/
def attemptStep (outcomes : Nat → AttemptOutcome) (nows : Nat → Int)
    (st : CredState) (attempt : Nat) : CredState × Except String Unit :=
  match outcomes attempt with
  | .transportError msg => (st, .error msg)
  | .response body => applyTokenData (nows attempt) st body

/-- The retry loop of `Credentials.refresh` (lines 70-117).  `outcomes k`
and `nows k` give attempt `k`'s endpoint interaction and the current time
when its response is processed; `fuel` is the number of attempts the
`range` still allows. -/
def refreshAux (outcomes : Nat → AttemptOutcome) (nows : Nat → Int)
    (max_retries : Nat) (base_delay : ℚ) (st : CredState) (attempt : Nat)
    (fuel : Nat) (sleeps : List ℚ) : RefreshTrace :=
  match fuel with
  | 0 => { state := st, attempts := attempt, sleeps := sleeps,
           result := .error (refreshFailMsg max_retries "None") }
  | fuel' + 1 =>
    match attemptStep outcomes nows st attempt with
    | (st', .ok ()) =>
      { state := st', attempts := attempt + 1, sleeps := sleeps, result := .ok () }
    | (st', .error msg) =>
      if is_non_retryable_error msg then
        { state := st', attempts := attempt + 1, sleeps := sleeps,
          result := .error (refreshFailMsg max_retries msg) }
      else if attempt < max_retries then
        refreshAux outcomes nows max_retries base_delay st' (attempt + 1) fuel'
          (sleeps ++ [base_delay * 2 ^ attempt])
      else
        { state := st', attempts := attempt + 1, sleeps := sleeps,
          result := .error (refreshFailMsg max_retries msg) }

/-- `Credentials.refresh` (lines 57-117): guard on a missing refresh
token, then the retry loop over `range(max_retries + 1)`. -/
def CredState.refresh (st : CredState) (outcomes : Nat → AttemptOutcome)
    (nows : Nat → Int) (max_retries : Nat) (base_delay : ℚ) : RefreshTrace :=
  if !st.refresh_token.truthy then
    { state := st, attempts := 0, sleeps := [], result := .error "无刷新令牌" }
  else
    refreshAux outcomes nows max_retries base_delay st 0 (max_retries + 1) []

/-- Trace of `refresh_if_needed`: the result is `true` exactly when a
refresh occurred. -/
structure RinTrace where
  state : CredState
  attempts : Nat
  sleeps : List ℚ
  result : Except String Bool
deriving DecidableEq, Repr

/-- `Credentials.refresh_if_needed` (lines 46-55), with the default
arguments `max_retries = 3`, `base_delay = 1.0` of `refresh`. -/
def CredState.refresh_if_needed (st : CredState) (now : Int)
    (outcomes : Nat → AttemptOutcome) (nows : Nat → Int) : RinTrace :=
  if !st.is_expired now then
    { state := st, attempts := 0, sleeps := [], result := .ok false }
  else if !st.refresh_token.truthy then
    { state := st, attempts := 0, sleeps := [],
      result := .error "需要刷新令牌但未提供" }
  else
    let t := st.refresh outcomes nows 3 1
    { state := t.state, attempts := t.attempts, sleeps := t.sleeps,
      result := t.result.map (fun _ => true) }

/-- `get_user_info` (lines 348-363).  `refresh_if_needed` runs OUTSIDE the
`try` block, so its exception propagates (`.error`); the userinfo GET and
body parsing run inside it, any failure there yielding `return None`
(`.ok none`). -/
def get_user_info (st : CredState) (now : Int)
    (outcomes : Nat → AttemptOutcome) (nows : Nat → Int)
    (userinfo : AttemptOutcome) : CredState × Except String (Option Dict) :=
  let t := st.refresh_if_needed now outcomes nows
  match t.result with
  | .error e => (t.state, .error e)
  | .ok _ =>
    match userinfo with
    | .transportError _ => (t.state, .ok none)
    | .response body => (t.state, .ok (some body))

/-! ## `Flow.exchange_code` and `ServiceAccount` -/

/-- `oauth_base_url.rstrip('/')`: drop every trailing slash. -/
def rstripSlash (s : String) : String :=
  String.mk ((s.data.reverse.dropWhile (fun c => c = '/')).reverse)

/-- The token URL built at each exchange site
(lines 73, 228, 314): `f"{oauth_base_url.rstrip('/')}/token"`. -/
def tokenUrl (oauth_base_url : String) : String :=
  rstripSlash oauth_base_url ++ "/token"

/-- The mutable part of a `Flow` that `exchange_code` touches. -/
structure FlowState where
  client_id : String
  client_secret : String
  credentials : Option CredState
deriving DecidableEq, Repr

/-- `Flow.exchange_code` (lines 216-258): a single attempt, everything in
one `try`; on any failure a `TokenError` wrapping `str(e)` is raised and
`self.credentials` is not assigned.  On success `expires_at` is computed
first, then the credential is built and stored. -/
def FlowState.exchange_code (fl : FlowState) (outcome : AttemptOutcome)
    (now : Int) : FlowState × Except String CredState :=
  match outcome with
  | .transportError msg => (fl, .error ("获取token失败: " ++ msg))
  | .response body =>
    match List.lookup "access_token" body with
    | none => (fl, .error "获取token失败: 'access_token'")
    | some v =>
      let expires : Except String (Option Int) :=
        match List.lookup "expires_in" body with
        | none => .ok none
        | some w =>
          match pyInt w with
          | .error e => .error e
          | .ok n => .ok (some (now + n))
      match expires with
      | .error e => (fl, .error ("获取token失败: " ++ e))
      | .ok ea =>
        let cred : CredState :=
          { access_token := v,
            refresh_token := dget body "refresh_token",
            expires_at := ea }
        ({ fl with credentials := some cred }, .ok cred)

/-- `ServiceAccount` state (lines 261-276).  `token_endpoint` is set to
`None` by `__init__` and never assigned anywhere in the module. -/
structure SAState where
  email : String
  private_key : String
  project_id : PyVal
  scopes : List String
  token_endpoint : Option String
  access_token : PyVal
  expires_at : Option Int
deriving DecidableEq, Repr

/-- `ServiceAccount.__init__` (lines 264-276) as reached from
`from_dict`: fresh cache, `token_endpoint = None`. -/
def SAState.init (email private_key : String) (project_id : PyVal)
    (scopes : List String) : SAState :=
  { email := email, private_key := private_key, project_id := project_id,
    scopes := scopes, token_endpoint := none,
    access_token := .vnone, expires_at := none }

/-- `ServiceAccount.from_dict` (lines 336-344). -/
def SAState.from_dict (data : Dict) (scopes : List String) : Option SAState :=
  match List.lookup "client_email" data, List.lookup "private_key" data with
  | some (.vstr em), some (.vstr pk) =>
    some (SAState.init em pk (dget data "project_id") scopes)
  | _, _ => none

/-- `ServiceAccount.is_expired` (lines 278-284): same body as
`Credentials.is_expired`. -/
def SAState.is_expired (sa : SAState) (now : Int) : Bool :=
  GOA.is_expired sa.expires_at now

/-- The payload dict built by `create_jwt` (lines 290-296). -/
structure JwtPayload where
  iss : String
  scope : String
  aud : Option String
  exp : Int
  iat : Int
deriving DecidableEq, Repr

/-- The arguments of the `jwt.encode(payload, key, algorithm)` call; the
signature itself is the external library's concern. -/
structure Jwt where
  payload : JwtPayload
  key : String
  algorithm : String
deriving DecidableEq, Repr

/-- `ServiceAccount.create_jwt` (lines 286-298); `now` is
`int(time.time())`. -/
def SAState.create_jwt (sa : SAState) (now : Int) : Jwt :=
  { payload :=
      { iss := sa.email,
        scope := if sa.scopes.isEmpty then "" else String.intercalate " " sa.scopes,
        aud := sa.token_endpoint,
        exp := now + 3600,
        iat := now },
    key := sa.private_key,
    algorithm := "RS256" }

/-- `ServiceAccount.get_access_token` (lines 300-334).  Returns the new
state, the number of network exchanges issued (0 or 1), and the result;
on failure a `TokenError` wrapping `str(e)` is raised.  As in `refresh`,
`access_token` is assigned before `expires_in` is converted, so that
mutation survives a conversion failure. -/
def SAState.get_access_token (sa : SAState) (outcome : AttemptOutcome)
    (now : Int) : SAState × Nat × Except String PyVal :=
  if !(sa.is_expired now) && sa.access_token.truthy then
    (sa, 0, .ok sa.access_token)
  else
    match outcome with
    | .transportError msg =>
      (sa, 1, .error ("Service Account获取token失败: " ++ msg))
    | .response body =>
      match List.lookup "access_token" body with
      | none => (sa, 1, .error "Service Account获取token失败: 'access_token'")
      | some v =>
        let sa1 := { sa with access_token := v }
        match List.lookup "expires_in" body with
        | none => (sa1, 1, .ok v)
        | some w =>
          match pyInt w with
          | .error e => (sa1, 1, .error ("Service Account获取token失败: " ++ e))
          | .ok n => ({ sa1 with expires_at := some (now + n) }, 1, .ok v)

/-! ## Helper lemmas: digits, ISO formatting, ISO parsing -/

theorem dg_isDigit : ∀ n : Nat, n < 10 → (dg n).isDigit = true := by decide

theorem cval_dg : ∀ n : Nat, n < 10 → cval (dg n) = n := by decide

theorem dg_ne_chars : ∀ n : Nat, n < 10 →
    dg n ≠ 'Z' ∧ dg n ≠ '+' ∧ dg n ≠ '-' ∧ dg n ≠ ':' ∧ dg n ≠ 'T' := by decide

@[simp] theorem dg_mod_isDigit (n : Nat) : (dg (n % 10)).isDigit = true :=
  dg_isDigit _ (Nat.mod_lt _ (by norm_num))

@[simp] theorem cval_dg_mod (n : Nat) : cval (dg (n % 10)) = n % 10 :=
  cval_dg _ (Nat.mod_lt _ (by norm_num))

@[simp] theorem dg_mod_ne_Z (n : Nat) : ¬(dg (n % 10) = 'Z') :=
  (dg_ne_chars _ (Nat.mod_lt _ (by norm_num))).1

@[simp] theorem dg_mod_ne_plus (n : Nat) : ¬(dg (n % 10) = '+') :=
  (dg_ne_chars _ (Nat.mod_lt _ (by norm_num))).2.1

theorem parseCore_fmt (dt : DT) (tz : Option Int) (hv : dt.validb = true) :
    parseCore (dg (dt.year / 1000 % 10)) (dg (dt.year / 100 % 10))
      (dg (dt.year / 10 % 10)) (dg (dt.year % 10)) '-' (dg (dt.month / 10 % 10))
      (dg (dt.month % 10)) '-' (dg (dt.day / 10 % 10)) (dg (dt.day % 10)) 'T'
      (dg (dt.hour / 10 % 10)) (dg (dt.hour % 10)) ':' (dg (dt.minute / 10 % 10))
      (dg (dt.minute % 10)) ':' (dg (dt.second / 10 % 10)) (dg (dt.second % 10))
      tz = some { dt with tz := tz } := by
  have h := hv
  unfold DT.validb at h
  simp only [Bool.and_eq_true, decide_eq_true_eq] at h
  obtain ⟨⟨⟨⟨⟨⟨⟨⟨hy, hm1⟩, hm2⟩, hd1⟩, hd2⟩, hh⟩, hmi⟩, hs⟩, -⟩ := h
  unfold parseCore
  simp only [dg_mod_isDigit, cval_dg_mod]
  have ey : 1000 * (dt.year / 1000 % 10) + 100 * (dt.year / 100 % 10) +
      10 * (dt.year / 10 % 10) + dt.year % 10 = dt.year := by omega
  have em : 10 * (dt.month / 10 % 10) + dt.month % 10 = dt.month := by omega
  have ed : 10 * (dt.day / 10 % 10) + dt.day % 10 = dt.day := by omega
  have eh : 10 * (dt.hour / 10 % 10) + dt.hour % 10 = dt.hour := by omega
  have emi : 10 * (dt.minute / 10 % 10) + dt.minute % 10 = dt.minute := by omega
  have es : 10 * (dt.second / 10 % 10) + dt.second % 10 = dt.second := by omega
  rw [ey, em, ed, eh, emi, es]
  have hcond : (1 ≤ dt.month && dt.month ≤ 12 && 1 ≤ dt.day && dt.day ≤ 31 &&
      dt.hour ≤ 23 && dt.minute ≤ 59 && dt.second ≤ 59 : Bool) = true := by
    simp only [Bool.and_eq_true, decide_eq_true_eq]
    omega
  simp [hcond]

theorem parseOffset_fmt (o : Int) (h : o.natAbs < 1440) :
    parseOffset (if 0 ≤ o then '+' else '-') (dg (o.natAbs / 60 / 10 % 10))
      (dg (o.natAbs / 60 % 10)) ':' (dg (o.natAbs % 60 / 10 % 10))
      (dg (o.natAbs % 60 % 10)) = some o := by
  unfold parseOffset
  by_cases ho : 0 ≤ o
  · simp only [ho, if_true, dg_mod_isDigit, cval_dg_mod, decide_True, decide_False,
      Bool.true_or, Bool.true_and, Bool.and_true]
    have hc : (decide (10 * (o.natAbs / 60 / 10 % 10) + o.natAbs / 60 % 10 ≤ 23) &&
        decide (10 * (o.natAbs % 60 / 10 % 10) + o.natAbs % 60 % 10 ≤ 59)) = true := by
      simp only [Bool.and_eq_true, decide_eq_true_eq]
      omega
    rw [if_pos hc]
    congr 1
    omega
  · simp only [ho, if_false, dg_mod_isDigit, cval_dg_mod, decide_True, decide_False,
      Bool.true_or, Bool.or_true, Bool.true_and, Bool.and_true]
    have hc : (decide (10 * (o.natAbs / 60 / 10 % 10) + o.natAbs / 60 % 10 ≤ 23) &&
        decide (10 * (o.natAbs % 60 / 10 % 10) + o.natAbs % 60 % 10 ≤ 59)) = true := by
      simp only [Bool.and_eq_true, decide_eq_true_eq]
      omega
    rw [if_pos trivial, if_pos hc, if_neg (show ¬('-' = '+') by decide)]
    congr 1
    omega

theorem fromisoformat_fmt (dt : DT) (hv : dt.validb = true) :
    fromisoformat (fmtWall dt ++ tzChars dt.tz) = some dt := by
  cases htz : dt.tz with
  | none =>
    simp only [tzChars, List.append_nil, fmtWall, fromisoformat]
    rw [parseCore_fmt dt none hv]
    cases dt
    simp only at htz
    simp [htz]
  | some o =>
    have hoff : o.natAbs < 1440 := by
      have h := hv
      unfold DT.validb at h
      rw [htz] at h
      simp only [Bool.and_eq_true, decide_eq_true_eq] at h
      exact h.2
    simp only [tzChars, two, fmtWall, List.cons_append, List.nil_append,
      fromisoformat]
    rw [parseOffset_fmt o hoff]
    dsimp only
    rw [parseCore_fmt dt (some o) hv]
    cases dt
    simp only at htz
    simp [htz]

theorem replaceZ_no_Z (l : List Char) (h : ∀ c ∈ l, c ≠ 'Z') :
    replaceZ (l ++ ['Z']) = l ++ ['+', '0', '0', ':', '0', '0'] := by
  induction l with
  | nil => simp [replaceZ]
  | cons a t ih =>
    have ha : a ≠ 'Z' := h a (by simp)
    rw [List.cons_append, replaceZ, if_neg ha, ih (fun c hc => h c (by simp [hc])),
      List.cons_append]

theorem fmtWall_no_Z (dt : DT) : ∀ c ∈ fmtWall dt, c ≠ 'Z' := by
  intro c hc
  simp only [fmtWall, List.mem_cons, List.not_mem_nil, or_false] at hc
  rcases hc with h | h | h | h | h | h | h | h | h | h | h | h | h | h | h | h | h | h | h <;>
    subst h <;> first | exact dg_mod_ne_Z _ | decide

theorem lastIsZ_fmt_naive (dt : DT) : lastIsZ (fmtWall dt ++ tzChars none) = false := by
  simp [fmtWall, tzChars, lastIsZ]

theorem lastIsZ_fmt_tz (dt : DT) (o : Int) :
    lastIsZ (fmtWall dt ++ tzChars (some o)) = false := by
  simp [fmtWall, tzChars, two, lastIsZ]

theorem lastIsZ_fmt_Z (dt : DT) : lastIsZ (fmtWall dt ++ ['Z']) = true := by
  simp [fmtWall, lastIsZ]

theorem hasChar_plus_fmt_naive (dt : DT) :
    hasChar '+' (fmtWall dt ++ tzChars none) = false := by
  simp [fmtWall, tzChars, hasChar, dg_mod_ne_plus]

theorem hasChar_plus_fmt_Z (dt : DT) : hasChar '+' (fmtWall dt ++ ['Z']) = false := by
  simp [fmtWall, hasChar, dg_mod_ne_plus]

theorem hasChar_plus_fmt_pos (dt : DT) (o : Int) (ho : 0 ≤ o) :
    hasChar '+' (fmtWall dt ++ tzChars (some o)) = true := by
  simp only [fmtWall, tzChars, two, List.cons_append, List.nil_append, if_pos ho]
  simp [hasChar, dg_mod_ne_plus]

theorem hasChar_plus_fmt_neg (dt : DT) (o : Int) (ho : o < 0) :
    hasChar '+' (fmtWall dt ++ tzChars (some o)) = false := by
  simp only [fmtWall, tzChars, two, List.cons_append, List.nil_append,
    if_neg (by omega : ¬(0 ≤ o))]
  simp [hasChar, dg_mod_ne_plus]

/-- Formatted naive datetime: parsed and re-tagged UTC (wall kept). -/
theorem parseExpiryStr_fmt_naive (dt : DT) (hv : dt.validb = true)
    (htz : dt.tz = none) :
    parseExpiryStr dt.isoformat = some (dtReplaceTzUtc dt) := by
  unfold parseExpiryStr endsWithZ containsPlus DT.isoformat
  rw [htz]
  rw [show (String.mk (fmtWall dt ++ tzChars none)).data = fmtWall dt ++ tzChars none from rfl]
  rw [lastIsZ_fmt_naive, hasChar_plus_fmt_naive]
  simp only [Bool.false_eq_true, if_false]
  have hfe : fromisoformat (fmtWall dt ++ tzChars none) = some dt := by
    have := fromisoformat_fmt dt hv
    rw [htz] at this
    exact this
  rw [hfe]

/-- Formatted nonnegative-offset datetime: parsed exactly. -/
theorem parseExpiryStr_fmt_pos (dt : DT) (hv : dt.validb = true) (o : Int)
    (htz : dt.tz = some o) (ho : 0 ≤ o) :
    parseExpiryStr dt.isoformat = some dt := by
  unfold parseExpiryStr endsWithZ containsPlus DT.isoformat
  rw [htz]
  rw [show (String.mk (fmtWall dt ++ tzChars (some o))).data
      = fmtWall dt ++ tzChars (some o) from rfl]
  rw [lastIsZ_fmt_tz, hasChar_plus_fmt_pos dt o ho]
  simp only [Bool.false_eq_true, if_false, if_true]
  have hfe := fromisoformat_fmt dt hv
  rw [htz] at hfe
  exact hfe

/-- Formatted negative-offset datetime: the string has no `+`, so the else
branch parses it and then REPLACES the offset by UTC, keeping the wall
clock — the instant shifts by the old offset. -/
theorem parseExpiryStr_fmt_neg (dt : DT) (hv : dt.validb = true) (o : Int)
    (htz : dt.tz = some o) (ho : o < 0) :
    parseExpiryStr dt.isoformat = some (dtReplaceTzUtc dt) := by
  unfold parseExpiryStr endsWithZ containsPlus DT.isoformat
  rw [htz]
  rw [show (String.mk (fmtWall dt ++ tzChars (some o))).data
      = fmtWall dt ++ tzChars (some o) from rfl]
  rw [lastIsZ_fmt_tz, hasChar_plus_fmt_neg dt o ho]
  simp only [Bool.false_eq_true, if_false]
  have hfe := fromisoformat_fmt dt hv
  rw [htz] at hfe
  rw [hfe]

/-- `Z`-suffixed wall clock: `Z` replaced by `+00:00`, parsed as UTC. -/
theorem parseExpiryStr_fmt_Z (dt : DT) (hv : dt.validb = true) :
    parseExpiryStr (String.mk (fmtWall dt ++ ['Z'])) = some { dt with tz := some 0 } := by
  unfold parseExpiryStr endsWithZ containsPlus
  rw [show (String.mk (fmtWall dt ++ ['Z'])).data = fmtWall dt ++ ['Z'] from rfl]
  rw [lastIsZ_fmt_Z]
  simp only [if_true]
  rw [replaceZ_no_Z (fmtWall dt) (fmtWall_no_Z dt)]
  have : fmtWall dt ++ ['+', '0', '0', ':', '0', '0']
      = fmtWall dt ++ tzChars (some 0) := by
    simp [tzChars, two, dg]
  rw [this]
  have hv0 : DT.validb { dt with tz := some 0 } = true := by
    unfold DT.validb at hv ⊢
    cases h : dt.tz <;> rw [h] at hv <;>
      simp only [Bool.and_eq_true] at hv ⊢ <;> exact ⟨hv.1, by decide⟩
  have hfe := fromisoformat_fmt { dt with tz := some 0 } hv0
  simp only at hfe
  rw [show fmtWall { dt with tz := some 0 } = fmtWall dt from rfl] at hfe
  exact hfe

/-! ## Claims -/

/-- C4: `is_expired` on both `Credentials` and `ServiceAccount` is a pure
predicate: it returns `true` when `expires_at` is absent; whenever
`expires_at - 3 min ≤ now` (UTC) it returns `true`; and whenever
`expires_at > now + 3 min` it returns `false`. -/
theorem claim_C4_is_expired (c : CredState) (sa : SAState) (now t : Int) :
    (c.expires_at = none → c.is_expired now = true) ∧
    (c.expires_at = some t → t - 180 ≤ now → c.is_expired now = true) ∧
    (c.expires_at = some t → now + 180 < t → c.is_expired now = false) ∧
    (sa.expires_at = none → sa.is_expired now = true) ∧
    (sa.expires_at = some t → t - 180 ≤ now → sa.is_expired now = true) ∧
    (sa.expires_at = some t → now + 180 < t → sa.is_expired now = false) := by
  refine ⟨?_, ?_, ?_, ?_, ?_, ?_⟩ <;> intro h
  · simp [CredState.is_expired, is_expired, h]
  · intro h2
    simp only [CredState.is_expired, is_expired, h, decide_eq_true_eq]
    omega
  · intro h2
    simp only [CredState.is_expired, is_expired, h, decide_eq_false_iff_not]
    omega
  · simp [SAState.is_expired, is_expired, h]
  · intro h2
    simp only [SAState.is_expired, is_expired, h, decide_eq_true_eq]
    omega
  · intro h2
    simp only [SAState.is_expired, is_expired, h, decide_eq_false_iff_not]
    omega

theorem claim_C4_is_expired_witness :
    ({ access_token := .vnone, refresh_token := .vnone,
       expires_at := some 200 } : CredState).is_expired 30 = true ∧
    ({ email := "e", private_key := "k", project_id := .vnone, scopes := [],
       token_endpoint := none, access_token := .vnone,
       expires_at := some 1000 } : SAState).is_expired 0 = false := by
  constructor
  · exact (claim_C4_is_expired ⟨.vnone, .vnone, some 200⟩
      ⟨"e", "k", .vnone, [], none, .vnone, some 1000⟩ 30 200).2.1 rfl (by decide)
  · exact (claim_C4_is_expired ⟨.vnone, .vnone, some 200⟩
      ⟨"e", "k", .vnone, [], none, .vnone, some 1000⟩ 0 1000).2.2.2.2.2 rfl (by decide)

theorem refreshAux_attempts_pos (outcomes : Nat → AttemptOutcome)
    (nows : Nat → Int) (mr : Nat) (bd : ℚ) :
    ∀ fuel attempt st sleeps, 1 ≤ attempt →
      1 ≤ (refreshAux outcomes nows mr bd st attempt fuel sleeps).attempts := by
  intro fuel
  induction fuel with
  | zero =>
    intro attempt st sleeps h
    simpa [refreshAux] using h
  | succ f ih =>
    intro attempt st sleeps h
    unfold refreshAux
    rcases hstep : attemptStep outcomes nows st attempt with ⟨st', r⟩
    cases r with
    | ok u =>
      cases u
      simp
    | error msg =>
      by_cases hnr : is_non_retryable_error msg = true
      · simp [hnr]
      · by_cases hlt : attempt < mr
        · simp only [Bool.not_eq_true] at hnr
          simp only [hnr, Bool.false_eq_true, if_false, hlt, if_true]
          exact ih (attempt + 1) st' (sleeps ++ [bd * 2 ^ attempt]) (by omega)
        · simp only [Bool.not_eq_true] at hnr
          simp [hnr, hlt]

theorem refresh_attempts_pos (st : CredState) (outcomes : Nat → AttemptOutcome)
    (nows : Nat → Int) (mr : Nat) (bd : ℚ)
    (h : st.refresh_token.truthy = true) :
    1 ≤ (st.refresh outcomes nows mr bd).attempts := by
  unfold CredState.refresh
  simp only [h, Bool.not_true, Bool.false_eq_true, if_false]
  unfold refreshAux
  rcases hstep : attemptStep outcomes nows st 0 with ⟨st', r⟩
  cases r with
  | ok u =>
    cases u
    simp
  | error msg =>
    by_cases hnr : is_non_retryable_error msg = true
    · simp [hnr]
    · by_cases hlt : 0 < mr
      · simp only [Bool.not_eq_true] at hnr
        simp only [hnr, Bool.false_eq_true, if_false, hlt, if_true]
        exact refreshAux_attempts_pos outcomes nows mr bd mr 1 st' _ (by omega)
      · simp only [Bool.not_eq_true] at hnr
        simp [hnr, hlt]

/-- C8: `refresh_if_needed` is a no-op returning `false` (no mutation, no
attempt) when the credential is not expired; raises `TokenError` with no
attempt when expired without a refresh token; and otherwise invokes
`refresh` (at least one attempt, same resulting state) and returns `true`
when the refresh succeeds. -/
theorem claim_C8_refresh_if_needed (st : CredState) (now : Int)
    (outcomes : Nat → AttemptOutcome) (nows : Nat → Int) :
    (st.is_expired now = false →
      st.refresh_if_needed now outcomes nows =
        { state := st, attempts := 0, sleeps := [], result := .ok false }) ∧
    (st.is_expired now = true → st.refresh_token.truthy = false →
      st.refresh_if_needed now outcomes nows =
        { state := st, attempts := 0, sleeps := [],
          result := .error "需要刷新令牌但未提供" }) ∧
    (st.is_expired now = true → st.refresh_token.truthy = true →
      1 ≤ (st.refresh_if_needed now outcomes nows).attempts ∧
      (st.refresh_if_needed now outcomes nows).state =
        (st.refresh outcomes nows 3 1).state ∧
      ((st.refresh outcomes nows 3 1).result = .ok () →
        (st.refresh_if_needed now outcomes nows).result = .ok true)) := by
  refine ⟨?_, ?_, ?_⟩
  · intro h
    simp [CredState.refresh_if_needed, h]
  · intro h1 h2
    simp [CredState.refresh_if_needed, h1, h2]
  · intro h1 h2
    refine ⟨?_, ?_, ?_⟩
    · simp only [CredState.refresh_if_needed, h1, Bool.not_true, Bool.false_eq_true,
        if_false, h2]
      exact refresh_attempts_pos st outcomes nows 3 1 h2
    · simp [CredState.refresh_if_needed, h1, h2]
    · intro hok
      simp [CredState.refresh_if_needed, h1, h2, hok, Except.map]

theorem claim_C8_refresh_if_needed_witness :
    ({ access_token := .vstr "a", refresh_token := .vnone,
       expires_at := some 10000 } : CredState).refresh_if_needed 0
        (fun _ => .transportError "timeout") (fun _ => 0) =
      { state := ⟨.vstr "a", .vnone, some 10000⟩, attempts := 0, sleeps := [],
        result := .ok false } := by
  exact (claim_C8_refresh_if_needed ⟨.vstr "a", .vnone, some 10000⟩ 0
    (fun _ => .transportError "timeout") (fun _ => 0)).1 (by decide)

/-- C1: `refresh` with `max_retries = 3`, `base_delay = 1.0`: a first
error classified non-retryable ends after exactly 1 attempt with no sleep
and a `TokenError` wrapping it; errors never so classified exhaust 4
attempts with sleeps `1 s, 2 s, 4 s` between consecutive attempts and end
in a `TokenError` wrapping the last error; an immediately successful
attempt ends after 1 attempt with no sleep ("up to 4 attempts"). -/
theorem claim_C1_refresh_retry (st : CredState) (outcomes : Nat → AttemptOutcome)
    (nows : Nat → Int) (msg : String) (msgs : Nat → String)
    (htr : st.refresh_token.truthy = true) :
    (outcomes 0 = .transportError msg → is_non_retryable_error msg = true →
      st.refresh outcomes nows 3 1 =
        { state := st, attempts := 1, sleeps := [],
          result := .error (refreshFailMsg 3 msg) }) ∧
    ((∀ k, k ≤ 3 → outcomes k = .transportError (msgs k) ∧
        is_non_retryable_error (msgs k) = false) →
      st.refresh outcomes nows 3 1 =
        { state := st, attempts := 4, sleeps := [1, 2, 4],
          result := .error (refreshFailMsg 3 (msgs 3)) }) ∧
    (∀ body, outcomes 0 = .response body →
      (applyTokenData (nows 0) st body).2 = .ok () →
      st.refresh outcomes nows 3 1 =
        { state := (applyTokenData (nows 0) st body).1, attempts := 1,
          sleeps := [], result := .ok () }) := by
  refine ⟨?_, ?_, ?_⟩
  · intro h1 h2
    simp only [CredState.refresh, htr, Bool.not_true, Bool.false_eq_true, if_false]
    simp [refreshAux, attemptStep, h1, h2]
  · intro h
    have h0 := h 0 (by omega)
    have h1 := h 1 (by omega)
    have h2 := h 2 (by omega)
    have h3 := h 3 (by omega)
    simp only [CredState.refresh, htr, Bool.not_true, Bool.false_eq_true, if_false]
    simp only [refreshAux, attemptStep, h0.1, h0.2, h1.1, h1.2, h2.1, h2.2,
      h3.1, h3.2, Bool.false_eq_true, if_false]
    norm_num
  · intro body hb hok
    rcases happ : applyTokenData (nows 0) st body with ⟨st', r⟩
    rw [happ] at hok
    simp only at hok
    subst hok
    simp only [CredState.refresh, htr, Bool.not_true, Bool.false_eq_true, if_false]
    simp [refreshAux, attemptStep, hb, happ]

theorem claim_C1_refresh_retry_witness :
    ({ access_token := .vstr "a", refresh_token := .vstr "r",
       expires_at := none } : CredState).refresh
        (fun _ => .transportError "invalid_grant") (fun _ => 0) 3 1 =
      { state := ⟨.vstr "a", .vstr "r", none⟩, attempts := 1, sleeps := [],
        result := .error (refreshFailMsg 3 "invalid_grant") } := by
  exact (claim_C1_refresh_retry ⟨.vstr "a", .vstr "r", none⟩
    (fun _ => .transportError "invalid_grant") (fun _ => 0) "invalid_grant"
    (fun _ => "x") (by decide)).1 rfl (by decide)

/-- C9: `ServiceAccount.get_access_token` returns the cached token with no
network exchange whenever a (truthy) cached token exists and is not
expired; and two successive calls whose first exchange succeeds with an
`expires_in` still covering the second call's time issue exactly one
exchange in total, both returning the same token. -/
theorem claim_C9_sa_token_cache (sa : SAState) (outcome outcome2 : AttemptOutcome)
    (now1 now2 : Int) (body : Dict) (t : String) (n : Int)
    (hexp : sa.is_expired now1 = true)
    (ho : outcome = .response body)
    (hat : List.lookup "access_token" body = some (.vstr t))
    (ht : t.data.isEmpty = false)
    (hei : List.lookup "expires_in" body = some (.vint n))
    (hlater : now2 < now1 + n - 180) :
    (∀ (sb : SAState) (o : AttemptOutcome) (nw : Int),
      sb.is_expired nw = false → sb.access_token.truthy = true →
      sb.get_access_token o nw = (sb, 0, .ok sb.access_token)) ∧
    (sa.get_access_token outcome now1).2.1 = 1 ∧
    (sa.get_access_token outcome now1).2.2 = .ok (.vstr t) ∧
    (sa.get_access_token outcome now1).1.get_access_token outcome2 now2 =
      ((sa.get_access_token outcome now1).1, 0, .ok (.vstr t)) := by
  subst ho
  have hr1 : sa.get_access_token (.response body) now1 =
      ({ sa with access_token := .vstr t, expires_at := some (now1 + n) }, 1,
        .ok (.vstr t)) := by
    unfold SAState.get_access_token
    simp [hexp, hat, hei, pyInt]
  refine ⟨?_, ?_, ?_, ?_⟩
  · intro sb o nw h1 h2
    unfold SAState.get_access_token
    simp [h1, h2]
  · rw [hr1]
  · rw [hr1]
  · rw [hr1]
    have hne :
        ({ sa with access_token := .vstr t, expires_at := some (now1 + n) } :
          SAState).is_expired now2 = false := by
      simp only [SAState.is_expired, is_expired, decide_eq_false_iff_not]
      omega
    have htr : (PyVal.vstr t).truthy = true := by
      simp [PyVal.truthy, ht]
    unfold SAState.get_access_token
    simp [hne, htr]

theorem claim_C9_sa_token_cache_witness :
    ((SAState.init "e" "k" .vnone []).get_access_token
        (.response [("access_token", .vstr "tok"), ("expires_in", .vint 3600)])
        0).1.get_access_token (.transportError "down") 10 =
      (((SAState.init "e" "k" .vnone []).get_access_token
        (.response [("access_token", .vstr "tok"), ("expires_in", .vint 3600)])
        0).1, 0, .ok (.vstr "tok")) := by
  exact (claim_C9_sa_token_cache (SAState.init "e" "k" .vnone [])
    (.response [("access_token", .vstr "tok"), ("expires_in", .vint 3600)])
    (.transportError "down") 0 10
    [("access_token", .vstr "tok"), ("expires_in", .vint 3600)] "tok" 3600
    (by decide) rfl (by decide) (by decide) (by decide) (by decide)).2.2.2

/-- C2 (counterexample): `get_user_info` calls `refresh_if_needed` OUTSIDE
its `try` block (line 350 vs 352), so a refresh failure propagates: with
an expired credential lacking a refresh token, the call raises
`TokenError` instead of returning `None`, falsifying "never propagates an
exception to the caller". -/
theorem claim_C2_counterexample :
    (get_user_info ⟨.vstr "tok", .vnone, none⟩ 0 (fun _ => .transportError "x")
      (fun _ => 0) (.response [])).2 = .error "需要刷新令牌但未提供" := by
  decide

/-- C2 (amended): `get_user_info` returns `None` (logged, not raised) on
any failure of the userinfo GET itself, but an exception raised while
refreshing the expired credential propagates to the caller unchanged,
because `refresh_if_needed` runs before the `try` block. -/
theorem claim_C2_get_user_info_amended (st : CredState) (now : Int)
    (outcomes : Nat → AttemptOutcome) (nows : Nat → Int) (ui : AttemptOutcome) :
    (∀ e, (st.refresh_if_needed now outcomes nows).result = .error e →
      (get_user_info st now outcomes nows ui).2 = .error e) ∧
    (∀ b, (st.refresh_if_needed now outcomes nows).result = .ok b →
      ((∀ m, ui = .transportError m →
          (get_user_info st now outcomes nows ui).2 = .ok none) ∧
       (∀ body, ui = .response body →
          (get_user_info st now outcomes nows ui).2 = .ok (some body)))) := by
  constructor
  · intro e he
    simp [get_user_info, he]
  · intro b hb
    constructor
    · intro m hm
      simp [get_user_info, hb, hm]
    · intro body hbody
      simp [get_user_info, hb, hbody]

theorem claim_C2_get_user_info_amended_witness :
    (get_user_info ⟨.vstr "tok", .vnone, some 10000⟩ 0
      (fun _ => .transportError "x") (fun _ => 0)
      (.transportError "503 unavailable")).2 = .ok none := by
  exact ((claim_C2_get_user_info_amended ⟨.vstr "tok", .vnone, some 10000⟩ 0
    (fun _ => .transportError "x") (fun _ => 0)
    (.transportError "503 unavailable")).2 false (by decide)).1
    "503 unavailable" rfl

theorem refreshAux_state_preserved (outcomes : Nat → AttemptOutcome)
    (nows : Nat → Int) (mr : Nat) (bd : ℚ)
    (h : ∀ k, (∃ m, outcomes k = .transportError m) ∨
      (∃ body, outcomes k = .response body ∧
        List.lookup "access_token" body = none)) :
    ∀ fuel attempt st sleeps,
      (refreshAux outcomes nows mr bd st attempt fuel sleeps).state = st := by
  intro fuel
  induction fuel with
  | zero =>
    intro attempt st sleeps
    simp [refreshAux]
  | succ f ih =>
    intro attempt st sleeps
    have hstep : ∃ m, attemptStep outcomes nows st attempt = (st, .error m) := by
      rcases h attempt with ⟨m, hm⟩ | ⟨body, hb, hk⟩
      · exact ⟨m, by simp [attemptStep, hm]⟩
      · exact ⟨"'access_token'", by simp [attemptStep, hb, applyTokenData, hk]⟩
    obtain ⟨m, hm⟩ := hstep
    unfold refreshAux
    rw [hm]
    by_cases hnr : is_non_retryable_error m = true
    · simp [hnr]
    · by_cases hlt : attempt < mr
      · simp only [Bool.not_eq_true] at hnr
        simp only [hnr, Bool.false_eq_true, if_false, hlt, if_true]
        exact ih (attempt + 1) st (sleeps ++ [bd * 2 ^ attempt])
      · simp only [Bool.not_eq_true] at hnr
        simp [hnr, hlt]

/-- C3 (counterexample): a refresh attempt whose response carries a valid
`access_token` but a malformed `expires_in` assigns `access_token` (line
82) before `int(...)` raises (line 85); the exception is caught and
retried, and the final `TokenError` leaves the credential with the new
`access_token` — a partial mutation, falsifying "failure never leaves a
partial credential state". -/
theorem claim_C3_counterexample :
    ((CredState.mk (.vstr "old") (.vstr "rt") none).refresh
        (fun _ => .response
          [("access_token", .vstr "new"), ("expires_in", .vstr "soon")])
        (fun _ => 0) 3 1).result =
      .error (refreshFailMsg 3 "invalid literal for int() with base 10: 'soon'") ∧
    ((CredState.mk (.vstr "old") (.vstr "rt") none).refresh
        (fun _ => .response
          [("access_token", .vstr "new"), ("expires_in", .vstr "soon")])
        (fun _ => 0) 3 1).state.access_token = .vstr "new" ∧
    PyVal.vstr "new" ≠ PyVal.vstr "old" := by
  decide

/-- C3 (amended): `Flow.exchange_code` never stores a credential on
failure, and failures of `refresh` or `get_access_token` that occur
before a response body yields an `access_token` (transport error,
non-2xx, malformed body, missing key) leave every credential field
unchanged; but a failure after the `access_token` assignment (malformed
`expires_in`) retains the newly assigned token. -/
theorem claim_C3_no_partial_state_amended (st : CredState)
    (outcomes : Nat → AttemptOutcome) (nows : Nat → Int) (mr : Nat) (bd : ℚ)
    (fl : FlowState) (outcome : AttemptOutcome) (now : Int) (sa : SAState) :
    ((∀ k, (∃ m, outcomes k = .transportError m) ∨
        (∃ body, outcomes k = .response body ∧
          List.lookup "access_token" body = none)) →
      (st.refresh outcomes nows mr bd).state = st) ∧
    (∀ e, (fl.exchange_code outcome now).2 = .error e →
      (fl.exchange_code outcome now).1 = fl) ∧
    (((∃ m, outcome = .transportError m) ∨
        (∃ body, outcome = .response body ∧
          List.lookup "access_token" body = none)) →
      (sa.get_access_token outcome now).1 = sa) := by
  refine ⟨?_, ?_, ?_⟩
  · intro h
    unfold CredState.refresh
    by_cases htr : st.refresh_token.truthy = true
    · simp only [htr, Bool.not_true, Bool.false_eq_true, if_false]
      exact refreshAux_state_preserved outcomes nows mr bd h _ _ _ _
    · simp only [Bool.not_eq_true] at htr
      simp [htr]
  · intro e he
    unfold FlowState.exchange_code at he ⊢
    cases outcome with
    | transportError m => rfl
    | response body =>
      cases h1 : List.lookup "access_token" body with
      | none => simp [h1]
      | some v =>
        simp only [h1] at he ⊢
        cases h2 : List.lookup "expires_in" body with
        | none => simp [h2] at he
        | some w =>
          cases h3 : pyInt w with
          | error em => simp [h2, h3]
          | ok n => simp [h2, h3] at he
  · intro h
    rcases h with ⟨m, hm⟩ | ⟨body, hb, hk⟩
    · subst hm
      unfold SAState.get_access_token
      by_cases hc : (!(sa.is_expired now) && sa.access_token.truthy) = true
      · simp [hc]
      · simp only [Bool.not_eq_true] at hc
        simp [hc]
    · subst hb
      unfold SAState.get_access_token
      by_cases hc : (!(sa.is_expired now) && sa.access_token.truthy) = true
      · simp [hc]
      · simp only [Bool.not_eq_true] at hc
        simp [hc, hk]

theorem claim_C3_no_partial_state_amended_witness :
    ((CredState.mk (.vstr "old") (.vstr "rt") none).refresh
        (fun _ => .response [("expires_in", .vint 3600)]) (fun _ => 0) 3 1).state =
      CredState.mk (.vstr "old") (.vstr "rt") none := by
  exact (claim_C3_no_partial_state_amended ⟨.vstr "old", .vstr "rt", none⟩
    (fun _ => .response [("expires_in", .vint 3600)]) (fun _ => 0) 3 1
    (FlowState.mk "ci" "cs" none) (.response [("expires_in", .vint 3600)]) 0
    (SAState.init "e" "k" .vnone [])).1
    (fun _ => Or.inr ⟨[("expires_in", .vint 3600)], rfl, by decide⟩)

/-- C5 (counterexample): `aud` is `self.token_endpoint`, which `__init__`
sets to `None` (line 273) and nothing in the module ever assigns; the
exchange instead POSTs to `rstrip`-derived `{base}/token` (line 314).  So
for a freshly constructed account the JWT's `aud` is absent, not the
token endpoint used for the exchange. -/
theorem claim_C5_counterexample :
    ((SAState.init "svc@example.com" "PEM" .vnone ["s"]).create_jwt 1000).payload.aud
      = none ∧
    ((SAState.init "svc@example.com" "PEM" .vnone ["s"]).create_jwt 1000).payload.aud
      ≠ some (tokenUrl "https://oauth2.googleapis.com/") := by
  decide

/-- C5 (amended): the JWT payload has `iss` = email, `scope` = the
space-joined scopes (empty string for none), `iat` = now,
`exp` = now + 3600, signed RS256 with the stored private key — but `aud`
is the object's `token_endpoint` attribute, which this module initializes
to `None` and never assigns (it is not the URL used for the exchange). -/
theorem claim_C5_create_jwt_amended (sa : SAState) (now : Int) :
    (sa.create_jwt now).payload.iss = sa.email ∧
    (sa.create_jwt now).payload.scope = String.intercalate " " sa.scopes ∧
    (sa.scopes = [] → (sa.create_jwt now).payload.scope = "") ∧
    (sa.create_jwt now).payload.aud = sa.token_endpoint ∧
    (sa.create_jwt now).payload.iat = now ∧
    (sa.create_jwt now).payload.exp = now + 3600 ∧
    (sa.create_jwt now).key = sa.private_key ∧
    (sa.create_jwt now).algorithm = "RS256" ∧
    (∀ (data : Dict) (scopes : List String) (sa' : SAState),
      SAState.from_dict data scopes = some sa' →
      (sa'.create_jwt now).payload.aud = none) := by
  refine ⟨rfl, ?_, ?_, rfl, rfl, rfl, rfl, rfl, ?_⟩
  · unfold SAState.create_jwt
    cases sa.scopes with
    | nil => rfl
    | cons a t => rfl
  · intro h
    unfold SAState.create_jwt
    simp [h]
  · intro data scopes sa' h
    unfold SAState.from_dict at h
    split at h
    · injection h with h
      subst h
      rfl
    · exact absurd h (by simp)

theorem claim_C5_create_jwt_amended_witness :
    ((SAState.init "e" "k" .vnone ["a", "b"]).create_jwt 5).payload.aud = none := by
  exact (claim_C5_create_jwt_amended (SAState.init "e" "k" .vnone ["a", "b"])
    5).2.2.2.2.2.2.2.2 [("client_email", .vstr "e"), ("private_key", .vstr "k")]
    ["a", "b"] (SAState.init "e" "k" .vnone ["a", "b"]) (by decide)

theorem from_dict_expiry_str (s : String) (h : s.data.isEmpty = false) :
    (Credentials.from_dict [("expiry", .vstr s)]).1.expires_at = parseExpiryStr s ∧
    (Credentials.from_dict [("expiry", .vstr s)]).2 = (parseExpiryStr s).isNone := by
  have hnil : s.data ≠ [] := by
    intro hx
    rw [hx] at h
    simp at h
  unfold Credentials.from_dict dmem dget
  simp only [List.lookup, Option.isSome_some, PyVal.truthy, h]
  cases hp : parseExpiryStr s <;> simp [hp, hnil]

/-- C6 (counterexample): a negative-offset expiry string contains no `+`
and does not end in `Z`, so `from_dict` takes the naive branch and
`.replace(tzinfo=utc)` discards the offset, keeping the wall clock: the
parsed instant of `"2024-01-01T00:00:00-05:00"` is `1704067200`
(midnight UTC), not the equivalent instant `1704085200` (05:00 UTC) —
falsifying "any positive or negative UTC offset". -/
theorem claim_C6_counterexample :
    ((Credentials.from_dict
        [("expiry", .vstr "2024-01-01T00:00:00-05:00")]).1.expires_at.map
      DT.instant = some 1704067200) ∧
    DT.instant ⟨2024, 1, 1, 0, 0, 0, some (-300)⟩ = 1704085200 ∧
    (1704067200 : Int) ≠ 1704085200 := by
  decide

/-- C6 (amended): `from_dict` parses a `Z`-suffixed expiry to the exact
UTC wall clock, a nonnegative-offset expiry to the exact aware datetime
(equivalent instant preserved), and a naive expiry to the wall clock
assumed UTC; a negative-offset expiry has its offset discarded (see the
counterexample); any unparseable nonempty expiry string yields an absent
`expires_at` with a logged warning instead of an error. -/
theorem claim_C6_from_dict_expiry_amended (dt : DT) (s : String) (o : Int)
    (hv : dt.validb = true) :
    (dt.tz = some 0 →
      (Credentials.from_dict
        [("expiry", .vstr (String.mk (fmtWall dt ++ ['Z'])))]).1.expires_at =
        some dt) ∧
    (dt.tz = some o → 0 ≤ o →
      (Credentials.from_dict [("expiry", .vstr dt.isoformat)]).1.expires_at =
        some dt) ∧
    (dt.tz = none →
      (Credentials.from_dict [("expiry", .vstr dt.isoformat)]).1.expires_at =
        some (dtReplaceTzUtc dt) ∧
      DT.instant (dtReplaceTzUtc dt) = dt.wallEpoch) ∧
    (s.data.isEmpty = false → parseExpiryStr s = none →
      (Credentials.from_dict [("expiry", .vstr s)]).1.expires_at = none ∧
      (Credentials.from_dict [("expiry", .vstr s)]).2 = true) := by
  refine ⟨?_, ?_, ?_, ?_⟩
  · intro htz
    have hne : (String.mk (fmtWall dt ++ ['Z'])).data.isEmpty = false := by
      simp [fmtWall]
    rw [(from_dict_expiry_str _ hne).1, parseExpiryStr_fmt_Z dt hv]
    cases dt
    simp only at htz
    simp [htz]
  · intro htz ho
    have hne : (DT.isoformat dt).data.isEmpty = false := by
      simp [DT.isoformat, fmtWall]
    rw [(from_dict_expiry_str _ hne).1, parseExpiryStr_fmt_pos dt hv o htz ho]
  · intro htz
    have hne : (DT.isoformat dt).data.isEmpty = false := by
      simp [DT.isoformat, fmtWall]
    refine ⟨?_, ?_⟩
    · rw [(from_dict_expiry_str _ hne).1, parseExpiryStr_fmt_naive dt hv htz]
    · cases dt
      simp [DT.instant, dtReplaceTzUtc, DT.wallEpoch]
  · intro hne hp
    refine ⟨?_, ?_⟩
    · rw [(from_dict_expiry_str _ hne).1, hp]
    · rw [(from_dict_expiry_str _ hne).2, hp]
      rfl

theorem claim_C6_from_dict_expiry_amended_witness :
    (Credentials.from_dict
      [("expiry", .vstr (String.mk
        (fmtWall ⟨2024, 1, 1, 0, 0, 0, some 0⟩ ++ ['Z'])))]).1.expires_at =
      some ⟨2024, 1, 1, 0, 0, 0, some 0⟩ := by
  exact (claim_C6_from_dict_expiry_amended ⟨2024, 1, 1, 0, 0, 0, some 0⟩
    "not-a-date" 0 (by decide)).1 rfl

/-- C7: round-trip `to_dict` → `from_dict` reproduces every field
identically; with the module invariant that a present `expires_at` is a
UTC-aware datetime (offset 0, as every `expires_at` this module writes
is), the expiry round-trips exactly (hence within the spec's 1 s
tolerance), and an absent expiry round-trips to absent. -/
theorem claim_C7_roundtrip (c : Credentials)
    (h : c.expires_at = none ∨
      ∃ dt, c.expires_at = some dt ∧ dt.validb = true ∧ dt.tz = some 0) :
    (Credentials.from_dict c.to_dict).1.access_token = c.access_token ∧
    (Credentials.from_dict c.to_dict).1.refresh_token = c.refresh_token ∧
    (Credentials.from_dict c.to_dict).1.client_id = c.client_id ∧
    (Credentials.from_dict c.to_dict).1.client_secret = c.client_secret ∧
    (Credentials.from_dict c.to_dict).1.project_id = c.project_id ∧
    (Credentials.from_dict c.to_dict).1.expires_at = c.expires_at := by
  rcases h with hnone | ⟨dt, hdt, hv, htz⟩
  · unfold Credentials.to_dict Credentials.from_dict dmem dget dgetD pyOr
    rw [hnone]
    simp [List.lookup, PyVal.truthy]
  · have hne : (DT.isoformat dt).data.isEmpty = false := by
      simp [DT.isoformat, fmtWall]
    have hp := parseExpiryStr_fmt_pos dt hv 0 htz (by omega)
    unfold Credentials.to_dict Credentials.from_dict dmem dget dgetD pyOr
    rw [hdt]
    simp [List.lookup, PyVal.truthy, hne, hp]

theorem claim_C7_roundtrip_witness :
    (Credentials.from_dict (Credentials.to_dict
      ⟨.vstr "at", .vstr "rt", .vstr "ci", .vstr "cs",
        some ⟨2024, 6, 1, 12, 30, 0, some 0⟩, .vstr "pid"⟩)).1.expires_at =
      some ⟨2024, 6, 1, 12, 30, 0, some 0⟩ := by
  exact (claim_C7_roundtrip
    ⟨.vstr "at", .vstr "rt", .vstr "ci", .vstr "cs",
      some ⟨2024, 6, 1, 12, 30, 0, some 0⟩, .vstr "pid"⟩
    (Or.inr ⟨⟨2024, 6, 1, 12, 30, 0, some 0⟩, rfl, by decide, rfl⟩)).2.2.2.2.2

theorem dget_of_not_mem (d : Dict) (k : String) (h : dmem d k = false) :
    dget d k = .vnone := by
  unfold dmem at h
  unfold dget
  cases hx : List.lookup k d with
  | none => rfl
  | some v =>
    rw [hx] at h
    simp at h

theorem dgetD_of_not_mem (d : Dict) (k : String) (dflt : PyVal)
    (h : dmem d k = false) : dgetD d k dflt = dflt := by
  unfold dmem at h
  unfold dgetD
  cases hx : List.lookup k d with
  | none => rfl
  | some v =>
    rw [hx] at h
    simp at h

theorem dgetD_of_mem (d : Dict) (k : String) (dflt : PyVal)
    (h : dmem d k = true) : dgetD d k dflt = dget d k := by
  unfold dmem at h
  unfold dgetD dget
  cases hx : List.lookup k d with
  | none =>
    rw [hx] at h
    simp at h
  | some v => rfl

/-- The expiry handling of `from_dict`, summarised over all value
shapes. -/
theorem from_dict_expires_eq (d : Dict) :
    (Credentials.from_dict d).1.expires_at =
      (match dget d "expiry" with
       | .vstr s => if s.data.isEmpty then none else parseExpiryStr s
       | _ => none) ∧
    (Credentials.from_dict d).2 =
      (match dget d "expiry" with
       | .vstr s => !s.data.isEmpty && (parseExpiryStr s).isNone
       | _ => false) := by
  unfold Credentials.from_dict dmem dget
  cases hx : List.lookup "expiry" d with
  | none => simp
  | some v =>
    cases v with
    | vnone => simp [PyVal.truthy]
    | vint n =>
      cases hn : (n != 0) <;> simp [PyVal.truthy, hn]
    | vstr s =>
      cases hs : s.data.isEmpty with
      | true => simp [PyVal.truthy, hs]
      | false =>
        cases hp : parseExpiryStr s <;> simp [PyVal.truthy, hs, hp]

/-- C10 (counterexample): looking up `'access_token'` with Python's
`data.get('token') or data.get('access_token', '')` returns the stored
value when the key is PRESENT with a falsy value — `{'access_token':
None}` yields `None`, not the claimed empty-string default. -/
theorem claim_C10_counterexample :
    (Credentials.from_dict [("access_token", .vnone)]).1.access_token = .vnone ∧
    PyVal.vnone ≠ PyVal.vstr "" := by
  decide

/-- C10 (amended): `from_dict` is total — every field is a defaulted
lookup, a non-string expiry is silently treated as absent, and a failing
ISO parse is caught (absent expiry plus a warning).  `access_token`
defaults to `""` only when the `token` key is absent/falsy AND the
`access_token` key is absent; when `access_token` is present its stored
value (possibly falsy, e.g. `None`) is used as-is. -/
theorem claim_C10_from_dict_total_amended (d : Dict) (n : Int) (s : String) :
    (dmem d "token" = false → dmem d "access_token" = false →
      (Credentials.from_dict d).1.access_token = .vstr "") ∧
    ((dget d "token").truthy = true →
      (Credentials.from_dict d).1.access_token = dget d "token") ∧
    ((dget d "token").truthy = false → dmem d "access_token" = true →
      (Credentials.from_dict d).1.access_token = dget d "access_token") ∧
    (Credentials.from_dict d).1.refresh_token = dget d "refresh_token" ∧
    (Credentials.from_dict d).1.client_id = dget d "client_id" ∧
    (Credentials.from_dict d).1.client_secret = dget d "client_secret" ∧
    (Credentials.from_dict d).1.project_id = dget d "project_id" ∧
    (dget d "expiry" = .vint n →
      (Credentials.from_dict d).1.expires_at = none ∧
      (Credentials.from_dict d).2 = false) ∧
    (dget d "expiry" = .vstr s → parseExpiryStr s = none →
      (Credentials.from_dict d).1.expires_at = none ∧
      (s.data.isEmpty = false → (Credentials.from_dict d).2 = true)) := by
  refine ⟨?_, ?_, ?_, rfl, rfl, rfl, rfl, ?_, ?_⟩
  · intro h1 h2
    show pyOr (dget d "token") (dgetD d "access_token" (.vstr "")) = .vstr ""
    rw [dget_of_not_mem d "token" h1, dgetD_of_not_mem d "access_token" _ h2]
    rfl
  · intro h1
    show pyOr (dget d "token") (dgetD d "access_token" (.vstr "")) = dget d "token"
    unfold pyOr
    rw [h1]
    rfl
  · intro h1 h2
    show pyOr (dget d "token") (dgetD d "access_token" (.vstr "")) =
      dget d "access_token"
    unfold pyOr
    rw [h1, dgetD_of_mem d "access_token" _ h2]
    rfl
  · intro h
    rw [(from_dict_expires_eq d).1, (from_dict_expires_eq d).2, h]
    exact ⟨rfl, rfl⟩
  · intro h hp
    rw [(from_dict_expires_eq d).1, (from_dict_expires_eq d).2, h]
    constructor
    · cases hs : s.data.isEmpty <;> simp [hp]
    · intro hs
      simp [hs, hp]

theorem claim_C10_from_dict_total_amended_witness :
    (Credentials.from_dict []).1.access_token = .vstr "" := by
  exact (claim_C10_from_dict_total_amended [] 0 "x").1 (by decide) (by decide)

end GOA
